import Mathlib

/-!
Shallow embedding of src/src/backend_service.py: a Flask backend with three
endpoints (/api/get_repo, /api/mid_output, /api/project_summary).

Request bodies are modelled as parsed JSON values (an Option: none means the
body could not be parsed as JSON, in which case Flask's request.json raises
BadRequest and the framework answers 400). Python dict lookups via .get are
modelled by pyGet, which raises AttributeError on any non-dict value, as
Python does. The filesystem and the external Ollama inference service are
modelled as explicit parameters of the project_summary handler.
-/

namespace BackendService

/-- Parsed JSON values, as produced by Flask's request.json. -/
inductive Json where
  | null
  | bool (b : Bool)
  | num (n : Int)
  | str (s : String)
  | arr (elems : List Json)
  | obj (fields : List (String × Json))

/-- Message of the Python AttributeError raised when .get is called on a
parsed JSON value that is not a dict. -/
def attributeErrorMsg : String := "AttributeError: object has no attribute get"

/-- Models Python data.get(key, dflt): defined on dicts only; every other
value parsed from JSON (None, bool, int, str, list) has no .get attribute and
the lookup raises AttributeError. Object keys are assumed unique, as in a
Python dict. -/
def pyGet (j : Json) (key : String) (dflt : Json) : Except String Json :=
  match j with
  | .obj fields =>
    match fields.find? (fun kv => kv.1 == key) with
    | some kv => .ok kv.2
    | none => .ok dflt
  | _ => .error attributeErrorMsg

/-- Python truthiness of a parsed JSON value (used by the source's
if not project_path check). -/
def pyTruthy : Json → Bool
  | .null => false
  | .bool b => b
  | .num n => n != 0
  | .str s => s != ""
  | .arr elems => !elems.isEmpty
  | .obj fields => !fields.isEmpty

/-- Whether a parsed JSON value is an object (a Python dict). -/
def Json.isObj : Json → Bool
  | .obj _ => true
  | _ => false

/-- Whether a JSON object carries a given key. -/
def Json.hasKey : Json → String → Bool
  | .obj fields, k => fields.any (fun kv => kv.1 == k)
  | _, _ => false

/-- Outcome of one handler invocation, as observed by the HTTP client.
frameworkBadRequest is Flask's own 400 when request.json cannot parse the
body; unhandledException is Flask's generic 500 page for an uncaught Python
exception (neither carries an application JSON body). -/
inductive HttpResult where
  | response (status : Nat) (body : Json)
  | frameworkBadRequest
  | unhandledException (msg : String)

/-- The module-global repository list (backend_service.py lines 11-22). -/
def GITHUB_REPOS : List String :=
  [ "https://github.com/facebook/react",
    "https://github.com/vuejs/vue",
    "https://github.com/angular/angular",
    "https://github.com/sveltejs/svelte",
    "https://github.com/vercel/next.js",
    "https://github.com/microsoft/TypeScript",
    "https://github.com/nodejs/node",
    "https://github.com/expressjs/express",
    "https://github.com/nestjs/nest",
    "https://github.com/django/django" ]

/-- Embeds get_repo (lines 24-34). random.choice(GITHUB_REPOS) is modelled by
an arbitrary draw index reduced modulo the list length; the handler reads the
module-global list, passed here as the repos argument. The response is
jsonify({"github_url": repo}). -/
def get_repo (repos : List String) (draw : Nat) (body : Option Json) : HttpResult :=
  match body with
  | none => .frameworkBadRequest
  | some data =>
    match pyGet data "task" (.str "") with
    | .error e => .unhandledException e
    | .ok _task =>
      let repo := repos.getD (draw % repos.length) ""
      .response 200 (.obj [("github_url", .str repo)])

/-- The constant description string of mid_output (line 44). -/
def MID_OUTPUT_DESCRIPTION : String := "1. 小非的中间结果输出"

/-- Embeds mid_output (lines 36-46): reads data.get('task', '') and always
answers jsonify({"description": description}) with the constant string. -/
def mid_output (body : Option Json) : HttpResult :=
  match body with
  | none => .frameworkBadRequest
  | some data =>
    match pyGet data "task" (.str "") with
    | .error e => .unhandledException e
    | .ok _task => .response 200 (.obj [("description", .str MID_OUTPUT_DESCRIPTION)])

/-! Filesystem model and the os functions project_summary uses. -/

/-- A directory on the local filesystem: named subdirectories (in the order
the underlying enumeration yields them) and the files it directly contains. -/
inductive FSDir where
  | mk (subdirs : List (String × FSDir)) (files : List String)

/-- Whether a path string ends with the os separator. -/
def endsWithSep (a : String) : Bool :=
  match a.data.getLast? with
  | some c => c == '/'
  | none => false

/-- Models os.path.join(root, name) for a bare child name as passed by
os.walk (names contain no separator and are not absolute). -/
def osPathJoin (a b : String) : String :=
  if a = "" then b
  else if endsWithSep a then a ++ b else a ++ "/" ++ b

/-- One tuple yielded by os.walk: the walked path, the subdirectory names and
the file names of that directory. -/
abbrev WalkEntry := String × List String × List String

mutual
/-- Models os.walk(path) with the default topdown=True: yields the tuple of
the directory itself first, then recursively the tuples of each subdirectory
in enumeration order (depth-first pre-order). -/
def osWalk (path : String) : FSDir → List WalkEntry
  | .mk subdirs files =>
    (path, subdirs.map Prod.fst, files) :: osWalkList path subdirs
/-- The walk entries contributed by a list of named subdirectories of the
directory at path, in order. -/
def osWalkList (path : String) : List (String × FSDir) → List WalkEntry
  | [] => []
  | (name, d) :: rest => osWalk (osPathJoin path name) d ++ osWalkList path rest
end

/-- Scanning core of Python str.replace(old, new): replaces each
non-overlapping occurrence of old, scanning left to right; skip counts the
characters still to consume inside the last matched occurrence. -/
def replGo (old new : List Char) : List Char → Nat → List Char
  | [], _ => []
  | _ :: rest, skip + 1 => replGo old new rest skip
  | c :: rest, 0 =>
    if old.isPrefixOf (c :: rest) && !old.isEmpty then
      new ++ replGo old new rest (old.length - 1)
    else
      c :: replGo old new rest 0

/-- Models Python s.replace(old, new) for nonempty old: every non-overlapping
occurrence of old in s, found scanning left to right, is replaced by new. -/
def pyReplace (s old new : String) : String :=
  String.mk (replGo old.data new.data s.data 0)

/-- Number of os separators in a character list. -/
def countSepL (l : List Char) : Nat := l.countP (fun c => c == '/')

/-- Models s.count(os.sep): the number of (single-character) separators. -/
def countSep (s : String) : Nat := countSepL s.data

/-- Models os.path.basename: the part of the path after its last separator. -/
def basename (p : String) : String :=
  String.mk (p.data.foldl (fun acc c => if c = '/' then [] else acc ++ [c]) [])

/-- A run of n space characters; models the Python expression ' ' * n. -/
def spaces (n : Nat) : String := String.mk (List.replicate n ' ')

/-- Body of the dir_tree loop (lines 60-65) for one os.walk tuple, with the
level computation abstracted: appends the directory line
indent + basename(root) + '/' and one subindent + file line per file. -/
def treeLine (levelOf : String → Nat) (dir_tree : String) (e : WalkEntry) : String :=
  let root := e.1
  let files := e.2.2
  let level := levelOf root
  let indent := spaces (4 * level)
  let withDir := dir_tree ++ indent ++ basename root ++ "/\n"
  let subindent := spaces (4 * (level + 1))
  files.foldl (fun acc file => acc ++ subindent ++ file ++ "\n") withDir

/-- Embeds the directory-tree construction of project_summary (lines 58-65):
dir_tree accumulates over os.walk(project_path), and the level of a walked
path root is root.replace(project_path, '').count(os.sep). -/
def buildDirTree (project_path : String) (d : FSDir) : String :=
  (osWalk project_path d).foldl
    (treeLine (fun root => countSep (pyReplace root project_path ""))) ""

/-- Modelled from the spec: the same rendering, but the depth of each walked
path is the path-separator count of the walked path relative to the root,
i.e. of the suffix of the walked path after the root prefix. -/
def specDirTree (project_path : String) (d : FSDir) : String :=
  (osWalk project_path d).foldl
    (treeLine (fun root => countSepL (root.data.drop project_path.data.length))) ""

/-- Whether old occurs as a contiguous subsequence of a character list. -/
def containsSub (old : List Char) : List Char → Bool
  | [] => old.isEmpty
  | c :: rest => old.isPrefixOf (c :: rest) || containsSub old rest

/-- Holds when the root string p occurs in the walked path exactly once, as
its prefix: p is a prefix of root and does not reoccur in the remainder. -/
def prefixOccursOnce (p root : String) : Bool :=
  p.data.isPrefixOf root.data && !(containsSub p.data (root.data.drop p.data.length))

/-! The project_summary handler with its two external collaborators (the
local filesystem and the Ollama inference service) as explicit parameters. -/

/-- What the local filesystem holds at a given path string. -/
inductive PathState where
  | missing
  | plainFile
  | dir (d : FSDir)

/-- The fixed remote inference endpoint (line 78). -/
def OLLAMA_URL : String := "http://10.129.164.27:11434/api/generate"

/-- Models the message of the requests.exceptions.HTTPError raised by
response.raise_for_status() for a 4xx or 5xx response. -/
def raiseForStatusMsg (status : Nat) (reason : String) : String :=
  if status < 500 then
    toString status ++ " Client Error: " ++ reason ++ " for url: " ++ OLLAMA_URL
  else
    toString status ++ " Server Error: " ++ reason ++ " for url: " ++ OLLAMA_URL

/-- Message of the requests.exceptions.JSONDecodeError raised by
response.json() when the upstream body is not valid JSON (a subclass of
RequestException in current requests, hence caught by the handler). -/
def jsonDecodeErrorMsg : String := "Expecting value: line 1 column 1 (char 0)"

/-- Message of the TypeError raised by os.path.exists for an argument that is
not path-like (a list or dict). Numeric values, which os.path.exists would
treat as file descriptors, are modelled the same way; no claim exercises a
non-string project_path. -/
def typeErrorMsg : String := "TypeError: argument should be a str or an os.PathLike object"

/-- Outcome of one requests.post to the inference service: either a raised
transport-level RequestException, or an HTTP response with its status code,
reason phrase and (optionally JSON-parseable) body. -/
inductive UpstreamResult where
  | transportError (msg : String)
  | httpResponse (status : Nat) (reason : String) (body : Option Json)

/-- Embeds lines 76-89: requests.post, response.raise_for_status() (which
raises a RequestException for statuses in [400, 600)), then
response.json().get('response', '') on the parsed body. Every
RequestException is answered with the 500 error JSON of line 89. -/
def ollamaCall (r : UpstreamResult) : HttpResult :=
  match r with
  | .transportError msg =>
    .response 500 (.obj [("error", .str ("Failed to connect to Ollama API: " ++ msg))])
  | .httpResponse status reason jbody =>
    if 400 ≤ status ∧ status < 600 then
      .response 500 (.obj [("error",
        .str ("Failed to connect to Ollama API: " ++ raiseForStatusMsg status reason))])
    else
      match jbody with
      | none =>
        .response 500 (.obj [("error",
          .str ("Failed to connect to Ollama API: " ++ jsonDecodeErrorMsg))])
      | some j =>
        match pyGet j "response" (.str "") with
        | .error e => .unhandledException e
        | .ok summary => .response 200 (.obj [("summary", summary)])

/-- The prompt of lines 68-73, built around the rendered directory tree. -/
def promptFor (dir_tree : String) : String :=
  "下面是一个项目的目录树结构。请提供两层的层次化功能摘要，技术架构，和别人使用的评价。功能摘要使用编号部分（1、1.1）来描述项目结构和每个主要组件的功能。重点关注项目的组织结构和不同目录/文件的用途。\n\n目录树：\n"
    ++ dir_tree ++ "\n\n请提供详细的两层层次化功能摘要，技术架构，和别人使用的评价："

/-- The 400 body of line 55. -/
def invalidPathBody : Json := .obj [("error", .str "Invalid project path")]

/-- Result of one project_summary invocation: the HTTP outcome, together with
the prompt sent to the inference service (none when the external call was
never made). -/
structure SummaryOutcome where
  result : HttpResult
  sentPrompt : Option String

/-- The dir_tree string the handler builds for an existing path: os.walk over
a path that is not a directory yields no tuples, so the tree is empty. -/
def dirTreeAt (fs : String → PathState) (path : String) : String :=
  match fs path with
  | .dir d => buildDirTree path d
  | _ => ""

/-- Embeds project_summary (lines 48-89). The filesystem is the fs parameter;
the outcome of the single requests.post is the upstream parameter. The source
checks (not project_path or not os.path.exists(project_path)) and answers the
400 of line 55; otherwise it builds dir_tree, builds the prompt and performs
the external call. -/
def project_summary (fs : String → PathState) (upstream : UpstreamResult)
    (body : Option Json) : SummaryOutcome :=
  match body with
  | none => ⟨.frameworkBadRequest, none⟩
  | some data =>
    match pyGet data "project_path" (.str "") with
    | .error e => ⟨.unhandledException e, none⟩
    | .ok pp =>
      if pyTruthy pp = false then ⟨.response 400 invalidPathBody, none⟩
      else
        match pp with
        | .str path =>
          match fs path with
          | .missing => ⟨.response 400 invalidPathBody, none⟩
          | _ =>
            let prompt := promptFor (dirTreeAt fs path)
            ⟨ollamaCall upstream, some prompt⟩
        | _ => ⟨.unhandledException typeErrorMsg, none⟩

/-! Server-level state passing, for the immutability of the repository list. -/

/-- The only module-level state of the process: the repository list. -/
structure ServerState where
  repos : List String

/-- One incoming API request, tagged with the handler it addresses and the
environment (draw, filesystem, upstream outcome) that request observes. -/
inductive ApiRequest where
  | getRepo (draw : Nat) (body : Option Json)
  | midOutput (body : Option Json)
  | projectSummary (fs : String → PathState) (upstream : UpstreamResult) (body : Option Json)

/-- The state the process starts with: GITHUB_REPOS as loaded at line 11. -/
def initialState : ServerState := ⟨GITHUB_REPOS⟩

/-- Dispatches one request to its handler. Handlers only read the repository
list; the state they return is the state they received. -/
def handleRequest (st : ServerState) (r : ApiRequest) : ServerState × HttpResult :=
  match r with
  | .getRepo draw body => (st, get_repo st.repos draw body)
  | .midOutput body => (st, mid_output body)
  | .projectSummary fs upstream body => (st, (project_summary fs upstream body).result)

/-- Runs a sequence of requests from a starting state. -/
def runRequests (st : ServerState) (rs : List ApiRequest) : ServerState :=
  rs.foldl (fun s r => (handleRequest s r).1) st

/-! Concrete fixtures used by witnesses and counterexamples. -/

/-- The root directory of the spec's worked example: one file a.txt and one
subdirectory sub containing b.txt. -/
def exampleDir : FSDir := .mk [("sub", .mk [] ["b.txt"])] ["a.txt"]

/-- A root directory at path /a holding a subdirectory also named a, so the
root path string /a occurs twice in the walked path /a/a. -/
def cexDir : FSDir := .mk [("a", .mk [] ["b.txt"])] []

/-- A filesystem with a single empty directory at /proj. -/
def projFs : String → PathState :=
  fun s => if s = "/proj" then .dir (.mk [] []) else .missing

/-- The request body {"project_path": "/proj"}. -/
def projBody : List (String × Json) := [("project_path", .str "/proj")]

/-! Helper lemmas about the Python string-replace model. -/

theorem isPrefixOf_self_append (l t : List Char) : l.isPrefixOf (l ++ t) = true := by
  induction l with
  | nil => simp [List.isPrefixOf]
  | cons c l ih => simp [List.isPrefixOf, ih]

theorem replGo_skip (old new u t : List Char) :
    replGo old new (u ++ t) u.length = replGo old new t 0 := by
  induction u with
  | nil => rfl
  | cons c u ih => exact ih

theorem replGo_no_occ (old new s : List Char) (h : containsSub old s = false) :
    replGo old new s 0 = s := by
  induction s with
  | nil => rfl
  | cons c rest ih =>
    simp only [containsSub, Bool.or_eq_false_iff] at h
    simp [replGo, h.1, ih h.2]

theorem replGo_strip (old new t : List Char) (hne : old ≠ []) :
    replGo old new (old ++ t) 0 = new ++ replGo old new t 0 := by
  match old, hne with
  | c :: old', _ =>
    have hpre := isPrefixOf_self_append (c :: old') t
    show replGo (c :: old') new (c :: (old' ++ t)) 0 = _
    simp only [List.cons_append] at hpre
    simp only [replGo, hpre, List.isEmpty_cons, Bool.not_false, Bool.and_true, if_true]
    have hs := replGo_skip (c :: old') new old' t
    simp only [List.length_cons, Nat.add_sub_cancel]
    rw [hs]

theorem containsSub_nil_true (s : List Char) : containsSub [] s = true := by
  cases s <;> simp [containsSub, List.isPrefixOf]

theorem eq_append_drop_of_isPrefixOf (l : List Char) :
    ∀ s : List Char, l.isPrefixOf s = true → s = l ++ s.drop l.length := by
  induction l with
  | nil => intro s _; simp
  | cons c l ih =>
    intro s h
    match s with
    | [] => simp [List.isPrefixOf] at h
    | b :: s' =>
      simp only [List.isPrefixOf, Bool.and_eq_true, beq_iff_eq] at h
      obtain ⟨rfl, hp⟩ := h
      simpa using ih s' hp

/-- When the root string p occurs in a walked path only as its prefix, the
source's root.replace(project_path, '') is exactly the walked path with that
prefix removed. -/
theorem pyReplace_of_prefixOnce (p root : String) (h : prefixOccursOnce p root = true) :
    (pyReplace root p "").data = root.data.drop p.data.length := by
  simp only [prefixOccursOnce, Bool.and_eq_true, Bool.not_eq_true'] at h
  obtain ⟨hpre, hnocc⟩ := h
  have hne : p.data ≠ [] := by
    intro hnil
    rw [hnil] at hnocc
    rw [containsSub_nil_true] at hnocc
    simp at hnocc
  have hdec := eq_append_drop_of_isPrefixOf p.data root.data hpre
  show (replGo p.data [] root.data 0) = _
  rw [hdec, replGo_strip _ _ _ hne, replGo_no_occ _ _ _ hnocc]
  simp [List.drop_left]

theorem treeLine_congr (f g : String → Nat) (acc : String) (e : WalkEntry)
    (h : f e.1 = g e.1) : treeLine f acc e = treeLine g acc e := by
  simp [treeLine, h]

theorem foldl_treeLine_congr (f g : String → Nat) (es : List WalkEntry)
    (h : ∀ e ∈ es, f e.1 = g e.1) :
    ∀ init : String, es.foldl (treeLine f) init = es.foldl (treeLine g) init := by
  induction es with
  | nil => intro init; rfl
  | cons e es ih =>
    intro init
    simp only [List.foldl_cons]
    rw [treeLine_congr f g init e (h e (by simp))]
    exact ih (fun e' he' => h e' (by simp [he'])) _

/-! Helper lemmas about the project_summary handler. -/

/-- A request reaches the external call when its body is a JSON object whose
project_path entry is a nonempty string naming an existing path. -/
def reachesUpstream (fs : String → PathState) (data : List (String × Json))
    (path : String) : Prop :=
  pyGet (.obj data) "project_path" (.str "") = .ok (.str path) ∧
    path ≠ "" ∧ fs path ≠ .missing

/-- A request that reaches the external call is answered by the Ollama-call
stage, with the prompt built around the rendered directory tree. -/
theorem project_summary_reach (fs : String → PathState) (up : UpstreamResult)
    (data : List (String × Json)) (path : String)
    (h : reachesUpstream fs data path) :
    project_summary fs up (some (.obj data)) =
      ⟨ollamaCall up, some (promptFor (dirTreeAt fs path))⟩ := by
  obtain ⟨hget, hne, hmiss⟩ := h
  have htr : pyTruthy (.str path) = true := by simp [pyTruthy, hne]
  simp only [project_summary, hget, htr]
  cases hfs : fs path with
  | missing => exact absurd hfs hmiss
  | plainFile => simp [hfs, dirTreeAt]
  | dir d => simp [hfs, dirTreeAt]

/-- The RequestException message produced by the post/raise_for_status stage
when one is raised: the transport error message, or the HTTPError message for
a final status in [400, 600). -/
def requestExceptionOf : UpstreamResult → Option String
  | .transportError msg => some msg
  | .httpResponse status reason _ =>
    if 400 ≤ status ∧ status < 600 then some (raiseForStatusMsg status reason) else none

theorem getD_mem_of_lt {α : Type} (l : List α) (n : Nat) (d : α) (h : n < l.length) :
    l.getD n d ∈ l := by
  induction l generalizing n with
  | nil => simp at h
  | cons a l ih =>
    cases n with
    | zero => simp
    | succ n =>
      simp only [List.getD_cons_succ]
      exact List.mem_cons_of_mem a (ih n (by simpa using h))

/-! Claim theorems. -/

/-- Claim C1 (counterexample): the directory tree's depth is not in general
the separator count of the walked path relative to the root. For the root
path /a containing a subdirectory named a, root.replace(project_path, '')
removes both occurrences of /a from the walked path /a/a, so the
subdirectory and its file are rendered at depth 0, not depth 1 as the
relative-path rule demands. -/
theorem dir_tree_depth_counterexample :
    buildDirTree "/a" cexDir = "a/\na/\n    b.txt\n" ∧
    specDirTree "/a" cexDir = "a/\n    a/\n        b.txt\n" ∧
    buildDirTree "/a" cexDir ≠ specDirTree "/a" cexDir := by
  refine ⟨rfl, rfl, ?_⟩
  intro hcontra
  have : ("a/\na/\n    b.txt\n" : String) = "a/\n    a/\n        b.txt\n" := hcontra
  simp at this

/-- Claim C1 (amended): the rendered tree emits, in depth-first pre-order of
os.walk, one line per directory and one indented line per file, 4 spaces per
depth level, where the depth of a walked path is the separator count of the
walked path with every occurrence of the root string removed; this equals the
separator count of the walked path relative to the root whenever the root
string occurs in each walked path only as its prefix. In particular, for a
root containing a.txt and sub/b.txt the tree holds exactly the four claimed
lines. -/
theorem dir_tree_depth_corrected (p : String) (d : FSDir)
    (h : ∀ e ∈ osWalk p d, prefixOccursOnce p e.1 = true) :
    buildDirTree p d = specDirTree p d ∧
    buildDirTree "root" exampleDir = "root/\n    a.txt\n    sub/\n        b.txt\n" := by
  constructor
  · unfold buildDirTree specDirTree
    apply foldl_treeLine_congr
    intro e he
    show countSep (pyReplace e.1 p "") = _
    unfold countSep
    rw [show (pyReplace e.1 p "").data = e.1.data.drop p.data.length from
      pyReplace_of_prefixOnce p e.1 (h e he)]
  · rfl

/-- Witness for C1: the worked example itself satisfies the
prefix-occurs-once hypothesis, and there the code tree, the relative-path
tree and the four claimed lines all agree. -/
theorem dir_tree_depth_corrected_witness :
    (∀ e ∈ osWalk "root" exampleDir, prefixOccursOnce "root" e.1 = true) ∧
    (buildDirTree "root" exampleDir = specDirTree "root" exampleDir ∧
     buildDirTree "root" exampleDir = "root/\n    a.txt\n    sub/\n        b.txt\n") :=
  ⟨by decide, dir_tree_depth_corrected "root" exampleDir (by decide)⟩

/-- Claim C2 (counterexample): for the well-formed object body {} the
/api/get_repo handler answers 200 with a body holding only github_url; it
carries no description field, contrary to the claim. -/
theorem get_repo_description_counterexample :
    get_repo GITHUB_REPOS 0 (some (.obj [])) =
      .response 200 (.obj [("github_url", .str "https://github.com/facebook/react")]) ∧
    Json.hasKey (.obj [("github_url", .str "https://github.com/facebook/react")])
      "description" = false :=
  ⟨rfl, rfl⟩

/-- Claim C2 (amended): for every well-formed JSON-object request body the
/api/get_repo handler returns HTTP 200 with a body whose github_url field is
one URL from the static repository list and which contains no description
field. -/
theorem get_repo_github_url_only (draw : Nat) (fields : List (String × Json)) :
    ∃ url ∈ GITHUB_REPOS,
      get_repo GITHUB_REPOS draw (some (.obj fields)) =
        .response 200 (.obj [("github_url", .str url)]) ∧
      Json.hasKey (.obj [("github_url", .str url)]) "description" = false := by
  refine ⟨GITHUB_REPOS.getD (draw % GITHUB_REPOS.length) "",
    getD_mem_of_lt _ _ _ (Nat.mod_lt _ (by decide)), ?_, rfl⟩
  cases h : fields.find? (fun kv => kv.1 == "task") <;> simp [get_repo, pyGet, h]

/-- Claim C3: whenever the external call yields a 2xx response whose JSON
body carries a response field, /api/project_summary answers 200 with summary
exactly that field's value, untransformed. -/
theorem project_summary_success_passthrough (fs : String → PathState)
    (data : List (String × Json)) (path reason : String) (status : Nat)
    (fields : List (String × Json)) (kv : String × Json)
    (hreach : reachesUpstream fs data path)
    (h2xx : 200 ≤ status ∧ status < 300)
    (hfind : fields.find? (fun kv' => kv'.1 == "response") = some kv) :
    (project_summary fs (.httpResponse status reason (some (.obj fields)))
        (some (.obj data))).result =
      .response 200 (.obj [("summary", kv.2)]) := by
  rw [project_summary_reach fs _ data path hreach]
  have hnot : ¬(400 ≤ status ∧ status < 600) := by omega
  simp [ollamaCall, hnot, pyGet, hfind]

/-- Witness for C3 at a concrete filesystem, request and upstream answer. -/
theorem project_summary_success_passthrough_witness :
    reachesUpstream projFs projBody "/proj" ∧ (200 ≤ 200 ∧ 200 < 300) ∧
    ([("response", Json.str "hello")].find? (fun kv' => kv'.1 == "response") =
      some ("response", Json.str "hello")) ∧
    (project_summary projFs
        (.httpResponse 200 "OK" (some (.obj [("response", .str "hello")])))
        (some (.obj projBody))).result =
      .response 200 (.obj [("summary", .str "hello")]) := by
  have hne : projFs "/proj" ≠ PathState.missing := by
    intro hcon
    rw [show projFs "/proj" = PathState.dir (.mk [] []) from rfl] at hcon
    exact PathState.noConfusion hcon
  have hr : reachesUpstream projFs projBody "/proj" := ⟨rfl, by decide, hne⟩
  exact ⟨hr, ⟨by decide, by decide⟩, rfl,
    project_summary_success_passthrough projFs projBody "/proj" "OK" 200
      [("response", Json.str "hello")] ("response", Json.str "hello")
      hr ⟨by decide, by decide⟩ rfl⟩

/-- Claim C4 (counterexample): a non-2xx upstream status need not produce
HTTP 500. With a final upstream status of 300, raise_for_status does not
raise (it raises only for [400, 600)), so the handler answers 200 with the
body's response field, not the claimed 500 error. -/
theorem upstream_non2xx_counterexample :
    (project_summary projFs
        (.httpResponse 300 "Multiple Choices" (some (.obj [("response", .str "s")])))
        (some (.obj projBody))).result =
      .response 200 (.obj [("summary", .str "s")]) ∧
    HttpResult.response 200 (.obj [("summary", .str "s")]) ≠
      .response 500 (.obj [("error", .str ("Failed to connect to Ollama API: "
        ++ raiseForStatusMsg 300 "Multiple Choices"))]) := by
  constructor
  · have hne : projFs "/proj" ≠ PathState.missing := by
      intro hcon
      rw [show projFs "/proj" = PathState.dir (.mk [] []) from rfl] at hcon
      exact PathState.noConfusion hcon
    rw [project_summary_reach projFs _ projBody "/proj" ⟨rfl, by decide, hne⟩]
    rfl
  · intro hcon
    simp at hcon

/-- Claim C4 (amended): whenever the external call raises a transport error,
or the final upstream status is a 4xx or 5xx (the range raise_for_status
raises for), /api/project_summary answers HTTP 500 with error equal to
"Failed to connect to Ollama API: " followed by the exception message; the
single requests.post is never retried. -/
theorem upstream_error_http500 (fs : String → PathState) (up : UpstreamResult)
    (data : List (String × Json)) (path m : String)
    (hreach : reachesUpstream fs data path)
    (hexc : requestExceptionOf up = some m) :
    (project_summary fs up (some (.obj data))).result =
      .response 500 (.obj [("error",
        .str ("Failed to connect to Ollama API: " ++ m))]) := by
  rw [project_summary_reach fs up data path hreach]
  cases up with
  | transportError msg =>
    simp only [requestExceptionOf, Option.some.injEq] at hexc
    simp [ollamaCall, hexc]
  | httpResponse status reason jbody =>
    simp only [requestExceptionOf] at hexc
    by_cases hc : 400 ≤ status ∧ status < 600
    · rw [if_pos hc] at hexc
      simp only [Option.some.injEq] at hexc
      simp [ollamaCall, hc, hexc]
    · rw [if_neg hc] at hexc
      exact absurd hexc (by simp)

/-- Witness for C4 at a concrete transport failure. -/
theorem upstream_error_http500_witness :
    reachesUpstream projFs projBody "/proj" ∧
    requestExceptionOf (.transportError "Connection refused") = some "Connection refused" ∧
    (project_summary projFs (.transportError "Connection refused")
        (some (.obj projBody))).result =
      .response 500 (.obj [("error",
        .str ("Failed to connect to Ollama API: " ++ "Connection refused"))]) := by
  have hne : projFs "/proj" ≠ PathState.missing := by
    intro hcon
    rw [show projFs "/proj" = PathState.dir (.mk [] []) from rfl] at hcon
    exact PathState.noConfusion hcon
  have hr : reachesUpstream projFs projBody "/proj" := ⟨rfl, by decide, hne⟩
  exact ⟨hr, rfl,
    upstream_error_http500 projFs (.transportError "Connection refused")
      projBody "/proj" "Connection refused" hr rfl⟩

/-- Claim C5: a request whose project_path is the empty string, absent (the
.get default is then the empty string), or names a path that does not exist,
is answered 400 with exactly the error body of line 55, and the inference
service is never contacted (no prompt is sent). -/
theorem invalid_path_http400 (fs : String → PathState) (up : UpstreamResult)
    (data : List (String × Json)) (path : String)
    (hget : pyGet (.obj data) "project_path" (.str "") = .ok (.str path))
    (hbad : path = "" ∨ fs path = .missing) :
    project_summary fs up (some (.obj data)) =
      ⟨.response 400 (.obj [("error", .str "Invalid project path")]), none⟩ := by
  simp only [project_summary, hget]
  by_cases hemp : path = ""
  · subst hemp
    simp [pyTruthy, invalidPathBody]
  · have hmiss : fs path = .missing := hbad.resolve_left hemp
    have htr : pyTruthy (.str path) = true := by simp [pyTruthy, hemp]
    simp [htr, hmiss, invalidPathBody]

/-- Witness for C5: a body with no project_path key (the absent case) on a
filesystem where no path exists. -/
theorem invalid_path_http400_witness :
    (pyGet (.obj []) "project_path" (.str "") = .ok (.str "")) ∧
    (("" : String) = "" ∨ projFs "" = .missing) ∧
    project_summary projFs (.transportError "x") (some (.obj [])) =
      ⟨.response 400 (.obj [("error", .str "Invalid project path")]), none⟩ :=
  ⟨rfl, Or.inl rfl,
    invalid_path_http400 projFs (.transportError "x") [] "" rfl (Or.inl rfl)⟩

/-- Claim C6: every URL /api/get_repo returns is drawn from the static
repository list, whatever the random draw, and that list has exactly 10
elements. -/
theorem get_repo_membership (draw : Nat) (fields : List (String × Json)) :
    GITHUB_REPOS.length = 10 ∧
    ∃ url ∈ GITHUB_REPOS,
      get_repo GITHUB_REPOS draw (some (.obj fields)) =
        .response 200 (.obj [("github_url", .str url)]) := by
  refine ⟨by decide, GITHUB_REPOS.getD (draw % GITHUB_REPOS.length) "",
    getD_mem_of_lt _ _ _ (Nat.mod_lt _ (by decide)), ?_⟩
  cases h : fields.find? (fun kv => kv.1 == "task") <;> simp [get_repo, pyGet, h]

/-- Claim C7 (counterexample): for an empty (unparseable) request body,
request.json raises and the framework answers its own 400, so /api/mid_output
does not return HTTP 200 with the fixed description. -/
theorem mid_output_empty_body_counterexample :
    mid_output none = .frameworkBadRequest ∧
    mid_output none ≠ .response 200 (.obj [("description", .str MID_OUTPUT_DESCRIPTION)]) := by
  refine ⟨rfl, ?_⟩
  intro hcon
  simp [mid_output] at hcon

/-- Claim C7 (amended): for every request body that parses as a JSON object,
/api/mid_output returns HTTP 200 with description equal to the one fixed
constant string, and any two such calls return identical responses. An empty
or otherwise unparseable body instead gets the framework's 400. -/
theorem mid_output_constant (fields fields' : List (String × Json)) :
    mid_output (some (.obj fields)) =
      .response 200 (.obj [("description", .str MID_OUTPUT_DESCRIPTION)]) ∧
    mid_output (some (.obj fields)) = mid_output (some (.obj fields')) := by
  have key : ∀ fs : List (String × Json),
      mid_output (some (.obj fs)) =
        .response 200 (.obj [("description", .str MID_OUTPUT_DESCRIPTION)]) := by
    intro fs
    cases h : fs.find? (fun kv => kv.1 == "task") <;> simp [mid_output, pyGet, h]
  exact ⟨key fields, (key fields).trans (key fields').symm⟩

/-- Claim C8: the repository list is immutable: no handler changes the server
state, so after any single request, and after any sequence of requests from
process start, the list still equals GITHUB_REPOS as loaded. -/
theorem repos_never_mutated :
    (∀ (st : ServerState) (r : ApiRequest), (handleRequest st r).1.repos = st.repos) ∧
    (∀ rs : List ApiRequest, (runRequests initialState rs).repos = GITHUB_REPOS) := by
  have h1 : ∀ (st : ServerState) (r : ApiRequest),
      (handleRequest st r).1.repos = st.repos := by
    intro st r
    cases r <;> rfl
  refine ⟨h1, ?_⟩
  have h2 : ∀ (rs : List ApiRequest) (st : ServerState),
      (runRequests st rs).repos = st.repos := by
    intro rs
    induction rs with
    | nil => intro st; rfl
    | cons r rs ih =>
      intro st
      show (runRequests (handleRequest st r).1 rs).repos = st.repos
      rw [ih, h1]
  intro rs
  exact h2 rs initialState

/-- Claim C9: a 2xx upstream answer whose JSON object carries no response
field still yields HTTP 200, with summary the empty-string default of
.get('response', ''). -/
theorem missing_response_field_empty_summary (fs : String → PathState)
    (data : List (String × Json)) (path reason : String) (status : Nat)
    (fields : List (String × Json))
    (hreach : reachesUpstream fs data path)
    (h2xx : 200 ≤ status ∧ status < 300)
    (hnone : fields.find? (fun kv' => kv'.1 == "response") = none) :
    (project_summary fs (.httpResponse status reason (some (.obj fields)))
        (some (.obj data))).result =
      .response 200 (.obj [("summary", .str "")]) := by
  rw [project_summary_reach fs _ data path hreach]
  have hnot : ¬(400 ≤ status ∧ status < 600) := by omega
  simp [ollamaCall, hnot, pyGet, hnone]

/-- Witness for C9 at a concrete upstream object without a response field. -/
theorem missing_response_field_empty_summary_witness :
    reachesUpstream projFs projBody "/proj" ∧ (200 ≤ 200 ∧ 200 < 300) ∧
    ([("done", Json.bool true)].find? (fun kv' => kv'.1 == "response") = none) ∧
    (project_summary projFs
        (.httpResponse 200 "OK" (some (.obj [("done", .bool true)])))
        (some (.obj projBody))).result =
      .response 200 (.obj [("summary", .str "")]) := by
  have hne : projFs "/proj" ≠ PathState.missing := by
    intro hcon
    rw [show projFs "/proj" = PathState.dir (.mk [] []) from rfl] at hcon
    exact PathState.noConfusion hcon
  have hr : reachesUpstream projFs projBody "/proj" := ⟨rfl, by decide, hne⟩
  exact ⟨hr, ⟨by decide, by decide⟩, rfl,
    missing_response_field_empty_summary projFs projBody "/proj" "OK" 200
      [("done", Json.bool true)] hr ⟨by decide, by decide⟩ rfl⟩

/-- Claim C10: a body that parses as JSON but is not an object makes every
handler's .get lookup raise AttributeError, so each produces an unhandled
exception rather than its documented 200 or its documented validation 400. -/
theorem nonobject_body_unhandled (j : Json) (draw : Nat) (fs : String → PathState)
    (up : UpstreamResult) (h : j.isObj = false) :
    get_repo GITHUB_REPOS draw (some j) = .unhandledException attributeErrorMsg ∧
    mid_output (some j) = .unhandledException attributeErrorMsg ∧
    (project_summary fs up (some j)).result = .unhandledException attributeErrorMsg := by
  cases j <;> simp_all [Json.isObj, get_repo, mid_output, project_summary, pyGet]

/-- Witness for C10 at the JSON array body []. -/
theorem nonobject_body_unhandled_witness :
    Json.isObj (.arr []) = false ∧
    (get_repo GITHUB_REPOS 0 (some (.arr [])) = .unhandledException attributeErrorMsg ∧
     mid_output (some (.arr [])) = .unhandledException attributeErrorMsg ∧
     (project_summary projFs (.transportError "x") (some (.arr []))).result =
       .unhandledException attributeErrorMsg) :=
  ⟨rfl, nonobject_body_unhandled (.arr []) 0 projFs (.transportError "x") rfl⟩

end BackendService
